import Mathlib

/-!
Verification of the Image Issue Classifier Gateway
(`local_modules/roboflow_local_service.py`).

The service exposes two POST handlers, `/analyze` (`analyze_image`) and
`/validate` (`validate_image`).  Both read an image source from the JSON
request body, call an external workflow collaborator, and reshape the raw
result.  We embed the handlers shallowly:

* Python floats become `ℚ` (all comparisons in the source are between
  plain decimal literals, which `ℚ` models exactly);
* a JSON request body becomes `Option ReqBody` (`none` models a body for
  which `request.get_json()` returned `None`);
* the collaborator call becomes an explicit `Except String RawResult`
  parameter (`Except.error e` models a raised exception whose `str` is
  `e`, `Except.ok r` a returned value);
* the raw result becomes `Option (List OutputBundle)`; `none` models a
  value that is falsy or not a list, and each nested `Option` models a
  missing key;
* Python `or` on string-valued fields becomes `pyOr` (truthiness of a
  string is non-emptiness; of `None`, falsity);
* Python `max` on a non-empty list becomes a left fold (`pyMaxQ`), and
  `max(xs, key=f)` becomes `pyMaxBy` (Python `max` replaces the current
  best only on a strictly greater key, hence keeps the first maximum).
-/

/-- One raw prediction record as returned by the collaborator.  Each field
models the corresponding dictionary key; `none` models an absent key (or a
key whose value is `None`, which `dict.get` cannot distinguish from an
absent one). -/
structure RawPred where
  cls : Option String
  label : Option String
  conf : Option ℚ
deriving Repr, DecidableEq

/-- The value of the nested `output2` key: optionally a `predictions`
list. -/
structure Output2 where
  predictions : Option (List RawPred)
deriving Repr, DecidableEq

/-- One element of the raw result list: optionally an `output2` bundle. -/
structure OutputBundle where
  output2 : Option Output2
deriving Repr, DecidableEq

/-- The raw result of `client.run_workflow`: `none` models a falsy or
non-list value (the source guards with
`if result and isinstance(result, list) and len(result) > 0`). -/
abbrev RawResult := Option (List OutputBundle)

/-- The parsed JSON request body.  The three image fields model the keys
the handlers read; `hasOtherKeys` records whether the body dictionary has
any further keys, which matters only for Python truthiness of the body in
the `if not data` guard of `analyze_image`. -/
structure ReqBody where
  image_path : Option String
  image_url : Option String
  image : Option String
  hasOtherKeys : Bool
deriving Repr, DecidableEq

/-- Python truthiness of a string-or-None value: `None` and the empty
string are falsy. -/
def truthyStr : Option String → Bool
  | none => false
  | some s => !(s == "")

/-- Python `a or b` for string-or-None values: returns `a` when `a` is
truthy, otherwise `b` (whatever `b` is). -/
def pyOr (a b : Option String) : Option String :=
  if truthyStr a then a else b

/-- Python truthiness of the body dictionary: truthy iff it has at least
one key. -/
def ReqBody.truthy (d : ReqBody) : Bool :=
  d.image_path.isSome || d.image_url.isSome || d.image.isSome || d.hasOtherKeys

/-- Truthiness of the optional body, as tested by `if not data`. -/
def dataTruthy : Option ReqBody → Bool
  | none => false
  | some d => d.truthy

/-- The image source both handlers read:
`data.get('image_path') or data.get('image_url') or data.get('image')`. -/
def imageSource (d : ReqBody) : Option String :=
  pyOr (pyOr d.image_path d.image_url) d.image

/-- `pred.get('confidence', 0)`: the confidence field with default 0. -/
def RawPred.confD (p : RawPred) : ℚ := p.conf.getD 0

/-- A normalized prediction as built by `analyze_image`:
`{'class': pred.get('class') or pred.get('label'),
  'confidence': pred.get('confidence', 0)}`. -/
structure NormPred where
  cls : Option String
  confidence : ℚ
deriving Repr, DecidableEq

/-- The per-record normalization performed inside the `analyze_image`
loop. -/
def normalizePred (p : RawPred) : NormPred :=
  ⟨pyOr p.cls p.label, p.confD⟩

/-- Python `max` on a non-empty list of rationals, written as
`pyMaxQ head tail`. -/
def pyMaxQ (x : ℚ) (xs : List ℚ) : ℚ := xs.foldl max x

/-- Python `max(x :: xs, key=key)`: scans left to right and replaces the
current best only when the key is strictly greater, so ties keep the
earlier element. -/
def pyMaxBy (key : RawPred → ℚ) : RawPred → List RawPred → RawPred
  | best, [] => best
  | best, x :: xs => pyMaxBy key (if key best < key x then x else best) xs

/-- The prediction list reachable at `result[0]['output2']['predictions']`,
or `[]` whenever any step of that path is absent (the guards
`if result and isinstance(result, list) and len(result) > 0` and
`if 'output2' in output and 'predictions' in output['output2']`). -/
def extractRawPreds : RawResult → List RawPred
  | some (output :: _) =>
    match output.output2 with
    | some o2 =>
      match o2.predictions with
      | some ps => ps
      | none => []
    | none => []
  | _ => []

/-- The maximum confidence (with per-record default 0) of a prediction
list, or 0 when the list is empty. -/
def maxConfD : List RawPred → ℚ
  | [] => 0
  | p :: ps => pyMaxQ p.confD (ps.map RawPred.confD)

/-- The admission threshold constant of `validate_image` (the source
literal `0.7`; written with `mkRat` so that the kernel can evaluate
comparisons against it). -/
def threshold : ℚ := mkRat 7 10

theorem threshold_eq : threshold = 7 / 10 := by
  norm_num [threshold, mkRat, Rat.normalize]

/-- Response of the `/analyze` handler.  `badRequest e` is the 400
response with body `{'success': False, 'error': e}`; `ok` is the 200
response; `serverError e` is the 500 response with body
`{'success': False, 'error': e}`. -/
inductive AnalyzeResp where
  | badRequest (err : String)
  | ok (predictions : List NormPred) (confidence : ℚ) (raw : RawResult)
  | serverError (err : String)
deriving Repr, DecidableEq

/-- Response of the `/validate` handler.  `badRequest e` is the 400
response; `ok` carries the fields of the 200 body in source order
(`confidence`, `modelConfidence`, `allowUpload`, `message`,
`detectedIssue`); `serverError` carries the 500 body fields (`error`,
`confidence`, `allowUpload`). -/
inductive ValidateResp where
  | badRequest (err : String)
  | ok (confidence : ℚ) (modelConfidence : ℚ) (allowUpload : Bool)
      (message : String) (detectedIssue : Option String)
  | serverError (err : String) (confidence : ℚ) (allowUpload : Bool)
deriving Repr, DecidableEq

/-- The result-parsing block of `analyze_image` (lines 66-82): the
normalized prediction list and the top confidence. -/
def analyzeCore (raw : RawResult) : List NormPred × ℚ :=
  match raw with
  | some (output :: _) =>
    match output.output2 with
    | some o2 =>
      match o2.predictions with
      | some (p :: ps) =>
        ((p :: ps).map normalizePred, pyMaxQ p.confD (ps.map RawPred.confD))
      | _ => ([], 0)
    | none => ([], 0)
  | _ => ([], 0)

/-- The `/analyze` handler `analyze_image`.  `data` is the parsed body
(`none` when `request.get_json()` returned `None`); `wf` is the behaviour
of the collaborator call, reached only when an image source is present. -/
def analyze_image (data : Option ReqBody) (wf : Except String RawResult) :
    AnalyzeResp :=
  if !dataTruthy data then .badRequest "No data provided"
  else
    match data with
    | none => .badRequest "No data provided"
    | some d =>
      if !truthyStr (imageSource d) then .badRequest "No image source provided"
      else
        match wf with
        | .error e => .serverError e
        | .ok raw =>
          let pc := analyzeCore raw
          .ok pc.1 pc.2 raw

/-- The result-processing block of `validate_image` (lines 121-137):
returns the reported confidence, the detected issue, and the allowUpload
flag. -/
def validateCore (raw : RawResult) : ℚ × Option String × Bool :=
  match raw with
  | some (output :: _) =>
    match output.output2 with
    | some o2 =>
      match o2.predictions with
      | some (p :: ps) =>
        let best := pyMaxBy RawPred.confD p ps
        let confidence := best.confD
        (confidence, pyOr best.cls best.label, decide (threshold ≤ confidence))
      | _ => (0, none, false)
    | none => (0, none, false)
  | _ => (0, none, false)

/-- The message built by `validate_image`:
`f'Detected Issue: {detected_issue}' if detected_issue else
'No civic issue detected'` — the condition is Python truthiness of the
detected issue. -/
def validateMessage (di : Option String) : String :=
  if truthyStr di then "Detected Issue: " ++ di.getD ""
  else "No civic issue detected"

/-- The `/validate` handler `validate_image`.  Unlike `analyze_image` it
has no `if not data` guard: when the body is `None`, `data.get(...)`
raises an `AttributeError`, caught by the handler, which returns the 500
body with confidence 0 and allowUpload false (we model the `str` of that
exception as a fixed message). -/
def validate_image (data : Option ReqBody) (wf : Except String RawResult) :
    ValidateResp :=
  match data with
  | none => .serverError "AttributeError: NoneType object has no attribute get" 0 false
  | some d =>
    if !truthyStr (imageSource d) then .badRequest "No image source provided"
    else
      match wf with
      | .error e => .serverError e 0 false
      | .ok raw =>
        let r := validateCore raw
        .ok r.1 r.1 r.2.2 (validateMessage r.2.1) r.2.1

/-- Accessor: the reported allowUpload flag of a `/validate` response, or
`none` when the response body has no such field (the 400 body). -/
def ValidateResp.allowUploadOf : ValidateResp → Option Bool
  | .badRequest _ => none
  | .ok _ _ a _ _ => some a
  | .serverError _ _ a => some a

/-- Accessor: the reported confidence of a `/validate` response, or
`none` when the response body has no such field (the 400 body). -/
def ValidateResp.confidenceOf : ValidateResp → Option ℚ
  | .badRequest _ => none
  | .ok c _ _ _ _ => some c
  | .serverError _ c _ => some c

/-- Accessor: the message of a `/validate` 200 response. -/
def ValidateResp.messageOf : ValidateResp → Option String
  | .ok _ _ _ m _ => some m
  | _ => none

/-- Accessor: the detectedIssue of a `/validate` 200 response (the inner
`Option` is the reported value, which may be null). -/
def ValidateResp.detectedIssueOf : ValidateResp → Option (Option String)
  | .ok _ _ _ _ di => some di
  | _ => none

/-- Accessor: the predictions list of an `/analyze` 200 response. -/
def AnalyzeResp.predictionsOf : AnalyzeResp → Option (List NormPred)
  | .ok ps _ _ => some ps
  | _ => none

/-- Accessor: the confidence of an `/analyze` 200 response. -/
def AnalyzeResp.confidenceOf : AnalyzeResp → Option ℚ
  | .ok _ c _ => some c
  | _ => none

/-- A raw result whose first output bundle carries the prediction list
`ps`, followed by arbitrary further bundles. -/
def mkRaw (ps : List RawPred) (outs : List OutputBundle) : RawResult :=
  some (⟨some ⟨some ps⟩⟩ :: outs)

example : analyze_image (some ⟨some "a.png", none, none, false⟩)
    (.ok (mkRaw [⟨some "pothole", none, some (mkRat 82 100)⟩] []))
    = .ok [⟨some "pothole", mkRat 82 100⟩] (mkRat 82 100)
        (mkRaw [⟨some "pothole", none, some (mkRat 82 100)⟩] []) := by decide

example : validate_image (some ⟨some "a.png", none, none, false⟩)
    (.ok (mkRaw [⟨some "pothole", none, some (mkRat 82 100)⟩] []))
    = .ok (mkRat 82 100) (mkRat 82 100) true "Detected Issue: pothole"
        (some "pothole") := by decide

example : validate_image (some ⟨some "a.png", none, none, false⟩)
    (.ok (mkRaw [] []))
    = .ok 0 0 false "No civic issue detected" none := by decide

/-- Truthiness distributes over Python `or`. -/
theorem truthyStr_pyOr (a b : Option String) :
    truthyStr (pyOr a b) = (truthyStr a || truthyStr b) := by
  unfold pyOr
  by_cases h : truthyStr a = true <;> simp [h]

/-- A truthy string-or-None value is present. -/
theorem isSome_of_truthyStr {a : Option String} (h : truthyStr a = true) :
    a.isSome = true := by
  cases a with
  | none => simp [truthyStr] at h
  | some s => rfl

/-- A body with a truthy image source is itself truthy (it has at least
one key). -/
theorem truthy_of_imageSource (d : ReqBody) (h : truthyStr (imageSource d) = true) :
    d.truthy = true := by
  unfold imageSource at h
  rw [truthyStr_pyOr, truthyStr_pyOr] at h
  unfold ReqBody.truthy
  rcases Bool.or_eq_true_iff.mp h with h2 | hi
  · rcases Bool.or_eq_true_iff.mp h2 with hp | hu
    · simp [isSome_of_truthyStr hp]
    · simp [isSome_of_truthyStr hu]
  · simp [isSome_of_truthyStr hi]

/-- The seed of a Python `max` fold is a lower bound of the result. -/
theorem le_pyMaxQ (a : ℚ) (xs : List ℚ) : a ≤ pyMaxQ a xs := by
  induction xs generalizing a with
  | nil => simp [pyMaxQ]
  | cons x xs ih =>
    have h1 : a ≤ max a x := le_max_left a x
    have h2 := ih (max a x)
    simp only [pyMaxQ, List.foldl] at h2 ⊢
    exact h1.trans h2

/-- Every list element is a lower bound of the Python `max` fold. -/
theorem mem_le_pyMaxQ {y : ℚ} {xs : List ℚ} (h : y ∈ xs) (a : ℚ) :
    y ≤ pyMaxQ a xs := by
  induction xs generalizing a with
  | nil => cases h
  | cons x xs ih =>
    rcases List.mem_cons.mp h with rfl | hmem
    · have h1 : y ≤ max a y := le_max_right a y
      have h2 := le_pyMaxQ (max a y) xs
      simp only [pyMaxQ, List.foldl] at h2 ⊢
      exact h1.trans h2
    · have h2 := ih hmem (max a x)
      simp only [pyMaxQ, List.foldl] at h2 ⊢
      exact h2

/-- Python `max` with a key never replaces the seed when no element has a
strictly greater key. -/
theorem pyMaxBy_of_forall_le (key : RawPred → ℚ) (b : RawPred)
    (xs : List RawPred) (h : ∀ y ∈ xs, key y ≤ key b) :
    pyMaxBy key b xs = b := by
  induction xs generalizing b with
  | nil => rfl
  | cons x xs ih =>
    have hx : key x ≤ key b := h x (List.mem_cons_self x xs)
    have hnot : ¬ key b < key x := not_lt.mpr hx
    simp only [pyMaxBy, hnot, if_neg, ite_false]
    exact ih b (fun y hy => h y (List.mem_cons_of_mem x hy))

/-- The key of the element selected by Python `max(…, key=…)` is the
maximum key. -/
theorem key_pyMaxBy (key : RawPred → ℚ) (b : RawPred) (xs : List RawPred) :
    key (pyMaxBy key b xs) = pyMaxQ (key b) (xs.map key) := by
  induction xs generalizing b with
  | nil => rfl
  | cons x xs ih =>
    by_cases hlt : key b < key x
    · have hmax : max (key b) (key x) = key x := max_eq_right hlt.le
      simp only [pyMaxBy, hlt, ite_true, pyMaxQ, List.map, List.foldl, hmax]
      exact ih x
    · have hmax : max (key b) (key x) = key b := max_eq_left (not_lt.mp hlt)
      simp only [pyMaxBy, hlt, ite_false, pyMaxQ, List.map, List.foldl, hmax]
      exact ih b

/-- The element selected by Python `max(…, key=…)` is the first element
of the list attaining the maximum key. -/
theorem find_pyMaxBy (key : RawPred → ℚ) (b : RawPred) (xs : List RawPred) :
    List.find? (fun y => key y == key (pyMaxBy key b xs)) (b :: xs)
      = some (pyMaxBy key b xs) := by
  induction xs generalizing b with
  | nil => simp [pyMaxBy]
  | cons x xs ih =>
    by_cases hlt : key b < key x
    · have hb : pyMaxBy key b (x :: xs) = pyMaxBy key x xs := by
        simp [pyMaxBy, hlt]
      rw [hb]
      have hle : key x ≤ key (pyMaxBy key x xs) := by
        rw [key_pyMaxBy key x xs]; exact le_pyMaxQ _ _
      have hbne : key b ≠ key (pyMaxBy key x xs) :=
        ne_of_lt (hlt.trans_le hle)
      rw [List.find?_cons_of_neg _ (by simpa using hbne)]
      exact ih x
    · have hb : pyMaxBy key b (x :: xs) = pyMaxBy key b xs := by
        simp [pyMaxBy, hlt]
      rw [hb]
      by_cases heq : key b = key (pyMaxBy key b xs)
      · have hall : ∀ y ∈ xs, key y ≤ key b := by
          intro y hy
          have h1 : key y ≤ pyMaxQ (key b) (xs.map key) :=
            mem_le_pyMaxQ (List.mem_map_of_mem key hy) (key b)
          rw [← key_pyMaxBy key b xs, ← heq] at h1
          exact h1
        have hstay : pyMaxBy key b xs = b := pyMaxBy_of_forall_le key b xs hall
        rw [hstay]
        exact List.find?_cons_of_pos _ (by simp)
      · have hblt : key b < key (pyMaxBy key b xs) := by
          have h1 : key b ≤ pyMaxQ (key b) (xs.map key) := le_pyMaxQ _ _
          rw [← key_pyMaxBy key b xs] at h1
          exact lt_of_le_of_ne h1 heq
        have hxne : key x ≠ key (pyMaxBy key b xs) :=
          ne_of_lt (lt_of_le_of_lt (not_lt.mp hlt) hblt)
        have hfrom := ih b
        rw [List.find?_cons_of_neg _ (by simpa using ne_of_lt hblt)] at hfrom
        rw [List.find?_cons_of_neg _ (by simpa using ne_of_lt hblt),
          List.find?_cons_of_neg _ (by simpa using hxne)]
        exact hfrom

/-- Specialization of `key_pyMaxBy` to the confidence key used by
`validate_image`. -/
theorem confD_pyMaxBy (b : RawPred) (xs : List RawPred) :
    (pyMaxBy RawPred.confD b xs).confD = pyMaxQ b.confD (xs.map RawPred.confD) :=
  key_pyMaxBy RawPred.confD b xs

/-- The parsing block of `analyze_image` normalizes exactly the extracted
prediction list and reports its maximum default-0 confidence. -/
theorem analyzeCore_eq (raw : RawResult) :
    analyzeCore raw
      = ((extractRawPreds raw).map normalizePred,
         maxConfD (extractRawPreds raw)) := by
  cases raw with
  | none => rfl
  | some outs =>
    cases outs with
    | nil => rfl
    | cons o os =>
      cases o with
      | mk oo2 =>
        cases oo2 with
        | none => rfl
        | some o2 =>
          cases o2 with
          | mk opreds =>
            cases opreds with
            | none => rfl
            | some ps =>
              cases ps with
              | nil => rfl
              | cons p ps => rfl

/-- The confidence reported by the processing block of `validate_image`
is the maximum default-0 confidence of the extracted prediction list. -/
theorem validateCore_confidence (raw : RawResult) :
    (validateCore raw).1 = maxConfD (extractRawPreds raw) := by
  cases raw with
  | none => rfl
  | some outs =>
    cases outs with
    | nil => rfl
    | cons o os =>
      cases o with
      | mk oo2 =>
        cases oo2 with
        | none => rfl
        | some o2 =>
          cases o2 with
          | mk opreds =>
            cases opreds with
            | none => rfl
            | some ps =>
              cases ps with
              | nil => rfl
              | cons p ps =>
                simp only [validateCore, extractRawPreds, maxConfD]
                exact confD_pyMaxBy p ps

/-- The maximum confidence of a normalized prediction list, or 0 when the
list is empty. -/
def maxNormConf : List NormPred → ℚ
  | [] => 0
  | q :: qs => pyMaxQ q.confidence (qs.map NormPred.confidence)

/-- Normalization preserves the maximum default-0 confidence. -/
theorem maxNormConf_map (l : List RawPred) :
    maxNormConf (l.map normalizePred) = maxConfD l := by
  cases l with
  | nil => rfl
  | cons p ps =>
    simp only [maxNormConf, maxConfD, List.map, List.map_map]
    rfl

/-- A raw result that is absent (falsy or not a list), an empty list, or
malformed in its first bundle: `output2` missing, `predictions` missing,
or the prediction list empty. -/
def degenerateRaw (raw : RawResult) : Prop :=
  raw = none ∨ raw = some [] ∨
    ∃ o outs, raw = some (o :: outs) ∧
      (o.output2 = none ∨ o.output2 = some ⟨none⟩ ∨ o.output2 = some ⟨some []⟩)

/-- A degenerate raw result extracts to the empty prediction list. -/
theorem extractRawPreds_degenerate {raw : RawResult} (h : degenerateRaw raw) :
    extractRawPreds raw = [] := by
  rcases h with rfl | rfl | ⟨o, outs, rfl, (ho | ho | ho)⟩
  · rfl
  · rfl
  · simp [extractRawPreds, ho]
  · simp [extractRawPreds, ho]
  · simp [extractRawPreds, ho]

/-- A raw result that extracts to no predictions is processed by
`validate_image` to confidence 0, no detected issue, and a false
allowUpload flag. -/
theorem validateCore_degenerate {raw : RawResult}
    (h : extractRawPreds raw = []) :
    validateCore raw = (0, none, false) := by
  cases raw with
  | none => rfl
  | some outs =>
    cases outs with
    | nil => rfl
    | cons o os =>
      cases o with
      | mk oo2 =>
        cases oo2 with
        | none => rfl
        | some o2 =>
          cases o2 with
          | mk opreds =>
            cases opreds with
            | none => rfl
            | some ps =>
              cases ps with
              | nil => rfl
              | cons p ps => simp [extractRawPreds] at h

/-- A true allowUpload flag out of the processing block of
`validate_image` forces the reported confidence to reach the threshold. -/
theorem validateCore_allow_le (raw : RawResult)
    (h : (validateCore raw).2.2 = true) :
    threshold ≤ (validateCore raw).1 := by
  cases raw with
  | none => simp [validateCore] at h
  | some outs =>
    cases outs with
    | nil => simp [validateCore] at h
    | cons o os =>
      cases o with
      | mk oo2 =>
        cases oo2 with
        | none => simp [validateCore] at h
        | some o2 =>
          cases o2 with
          | mk opreds =>
            cases opreds with
            | none => simp [validateCore] at h
            | some ps =>
              cases ps with
              | nil => simp [validateCore] at h
              | cons p ps =>
                simp only [validateCore, decide_eq_true_eq] at h
                exact h

/-- C1: for every raw result whose prediction list is non-empty, the
`/validate` handler reports `allowUpload = true` iff the maximum
confidence in the list reaches the 0.7 threshold, so a maximum of exactly
0.7 is allowed and any maximum strictly below 0.7 is rejected. -/
theorem validate_allowUpload_iff_threshold (d : ReqBody)
    (h : truthyStr (imageSource d) = true)
    (p : RawPred) (ps : List RawPred) (outs : List OutputBundle) :
    (validate_image (some d) (.ok (mkRaw (p :: ps) outs))).allowUploadOf
      = some true ↔ threshold ≤ maxConfD (p :: ps) := by
  simp [validate_image, h, validateCore, mkRaw, ValidateResp.allowUploadOf,
    maxConfD, confD_pyMaxBy]

/-- Witness for C1: one prediction at exactly 0.7 is allowed, one at
0.69999 is not. -/
theorem validate_allowUpload_iff_threshold_witness :
    (validate_image (some ⟨some "img.png", none, none, false⟩)
        (.ok (mkRaw [⟨some "pothole", none, some (mkRat 7 10)⟩] []))).allowUploadOf
      = some true
    ∧ (validate_image (some ⟨some "img.png", none, none, false⟩)
        (.ok (mkRaw [⟨some "pothole", none, some (mkRat 69999 100000)⟩] []))).allowUploadOf
      ≠ some true := by
  constructor
  · exact (validate_allowUpload_iff_threshold ⟨some "img.png", none, none, false⟩
      (by decide) ⟨some "pothole", none, some (mkRat 7 10)⟩ [] []).mpr (by decide)
  · intro hc
    exact absurd ((validate_allowUpload_iff_threshold ⟨some "img.png", none, none, false⟩
      (by decide) ⟨some "pothole", none, some (mkRat 69999 100000)⟩ [] []).mp hc)
      (by decide)

/-- C2: when the raw result is absent, empty, or malformed (a missing
`output2` or `predictions` key, or an empty prediction list), `/analyze`
returns its 200 response with an empty prediction list and confidence 0,
and `/validate` returns its 200 response with confidence 0, allowUpload
false, a null detected issue and the no-issue message; neither path
surfaces an error response, so no exception reaches the caller. -/
theorem degenerate_raw_yields_empty (d : ReqBody)
    (h : truthyStr (imageSource d) = true)
    (raw : RawResult) (hraw : degenerateRaw raw) :
    analyze_image (some d) (.ok raw) = .ok [] 0 raw
    ∧ validate_image (some d) (.ok raw)
        = .ok 0 0 false "No civic issue detected" none := by
  have hd := truthy_of_imageSource d h
  have hext := extractRawPreds_degenerate hraw
  constructor
  · simp [analyze_image, dataTruthy, hd, h, analyzeCore_eq, hext, maxConfD]
  · have hmsg : validateMessage none = "No civic issue detected" := rfl
    simp [validate_image, h, validateCore_degenerate hext, hmsg]

/-- Witness for C2: a first bundle with no `output2` key. -/
theorem degenerate_raw_yields_empty_witness :
    analyze_image (some ⟨some "img.png", none, none, false⟩)
      (.ok (some [⟨none⟩])) = .ok [] 0 (some [⟨none⟩])
    ∧ validate_image (some ⟨some "img.png", none, none, false⟩)
      (.ok (some [⟨none⟩])) = .ok 0 0 false "No civic issue detected" none :=
  degenerate_raw_yields_empty ⟨some "img.png", none, none, false⟩ (by decide)
    (some [⟨none⟩]) (Or.inr (Or.inr ⟨⟨none⟩, [], rfl, Or.inl rfl⟩))

/-- C5 (counterexample): a present but empty body, in which all three
image fields are missing, makes `/analyze` answer 400 with the error text
`No data provided` rather than `No image source provided`; and an absent
body makes `/validate` answer 500, not 400. -/
theorem missing_source_counterexample :
    analyze_image (some ⟨none, none, none, false⟩) (.ok none)
      = .badRequest "No data provided"
    ∧ validate_image none (.ok none)
      = .serverError "AttributeError: NoneType object has no attribute get" 0 false
    ∧ "No data provided" ≠ "No image source provided" := by
  refine ⟨rfl, rfl, by decide⟩

/-- C5 (amended): for every body that is non-empty (truthy) but carries no
truthy image source, both handlers answer 400 with
`No image source provided`, whatever the collaborator would do. -/
theorem missing_source_bad_request (d : ReqBody)
    (wf : Except String RawResult)
    (hd : d.truthy = true) (h : truthyStr (imageSource d) = false) :
    analyze_image (some d) wf = .badRequest "No image source provided"
    ∧ validate_image (some d) wf = .badRequest "No image source provided" := by
  constructor
  · simp [analyze_image, dataTruthy, hd, h]
  · simp [validate_image, h]

/-- Witness for the amended C5: a body holding only an unrelated key. -/
theorem missing_source_bad_request_witness :
    analyze_image (some ⟨none, none, none, true⟩) (.ok none)
      = .badRequest "No image source provided"
    ∧ validate_image (some ⟨none, none, none, true⟩) (.ok none)
      = .badRequest "No image source provided" :=
  missing_source_bad_request ⟨none, none, none, true⟩ (.ok none)
    (by decide) (by decide)

/-- C8: an exception raised during the collaborator call in `/validate`
yields the 500 response carrying the original error text, with confidence
reset to 0 and allowUpload reset to false. -/
theorem validate_collaborator_error (d : ReqBody)
    (h : truthyStr (imageSource d) = true) (e : String) :
    validate_image (some d) (.error e) = .serverError e 0 false := by
  simp [validate_image, h]

/-- Witness for C8 at a concrete body and error text. -/
theorem validate_collaborator_error_witness :
    validate_image (some ⟨some "img.png", none, none, false⟩)
      (.error "connection refused")
      = .serverError "connection refused" 0 false :=
  validate_collaborator_error ⟨some "img.png", none, none, false⟩ (by decide)
    "connection refused"

/-- C10: every `/validate` response that reports `allowUpload = true` also
reports a confidence at or above the 0.7 threshold; the 400 body reports
no allowUpload at all and the 500 body always reports false. -/
theorem validate_allowUpload_implies_confident (data : Option ReqBody)
    (wf : Except String RawResult)
    (h : (validate_image data wf).allowUploadOf = some true) :
    ∃ c, (validate_image data wf).confidenceOf = some c ∧ threshold ≤ c := by
  cases data with
  | none => simp [validate_image, ValidateResp.allowUploadOf] at h
  | some d =>
    by_cases hs : truthyStr (imageSource d) = true
    · cases wf with
      | error e => simp [validate_image, hs, ValidateResp.allowUploadOf] at h
      | ok raw =>
        refine ⟨(validateCore raw).1,
          by simp [validate_image, hs, ValidateResp.confidenceOf], ?_⟩
        simp only [validate_image, hs, Bool.not_true, Bool.false_eq_true,
          if_false, ValidateResp.allowUploadOf, Option.some.injEq] at h
        exact validateCore_allow_le raw h
    · have hs' : truthyStr (imageSource d) = false := by
        simpa using hs
      simp [validate_image, hs', ValidateResp.allowUploadOf] at h

/-- Witness for C10: a confident detection actually reaches the
threshold. -/
theorem validate_allowUpload_implies_confident_witness :
    ∃ c, (validate_image (some ⟨some "img.png", none, none, false⟩)
        (.ok (mkRaw [⟨some "pothole", none, some (mkRat 9 10)⟩] []))).confidenceOf
        = some c ∧ threshold ≤ c :=
  validate_allowUpload_implies_confident
    (some ⟨some "img.png", none, none, false⟩)
    (.ok (mkRaw [⟨some "pothole", none, some (mkRat 9 10)⟩] [])) (by decide)

/-- C3 (counterexample): a raw result with one prediction of confidence
0.9 but no `class` and no `label` field makes `/validate` answer with the
message `No civic issue detected` even though a detection exists (the
prediction list is non-empty and allowUpload is even true); the message is
not of the claimed `Detected Issue: …` form. -/
theorem validate_message_counterexample :
    validate_image (some ⟨some "img.png", none, none, false⟩)
      (.ok (mkRaw [⟨none, none, some (mkRat 9 10)⟩] []))
      = .ok (mkRat 9 10) (mkRat 9 10) true "No civic issue detected" none
    ∧ "No civic issue detected" ≠ "Detected Issue: None" := by
  refine ⟨by decide, by decide⟩

/-- C3 (amended): the `/validate` message is
`Detected Issue: {detectedIssue}` exactly when the reported detectedIssue
is truthy (present and non-empty), and `No civic issue detected`
otherwise — in particular also when a detection exists but both label
fields were absent, so the selected class_label is null. -/
theorem validate_message_matches_truthy_issue (d : ReqBody)
    (h : truthyStr (imageSource d) = true) (raw : RawResult) :
    ∃ di, (validate_image (some d) (.ok raw)).detectedIssueOf = some di
      ∧ (validate_image (some d) (.ok raw)).messageOf
          = some (if truthyStr di = true then "Detected Issue: " ++ di.getD ""
                  else "No civic issue detected") := by
  refine ⟨(validateCore raw).2.1, ?_, ?_⟩
  · simp [validate_image, h, ValidateResp.detectedIssueOf]
  · simp [validate_image, h, ValidateResp.messageOf, validateMessage]

/-- Witness for the amended C3: a detection whose record has no label
fields is reported with a null detectedIssue and the no-issue message. -/
theorem validate_message_matches_truthy_issue_witness :
    ∃ di, (validate_image (some ⟨some "img.png", none, none, false⟩)
        (.ok (mkRaw [⟨none, none, some (mkRat 9 10)⟩] []))).detectedIssueOf
        = some di
      ∧ (validate_image (some ⟨some "img.png", none, none, false⟩)
        (.ok (mkRaw [⟨none, none, some (mkRat 9 10)⟩] []))).messageOf
          = some (if truthyStr di = true then "Detected Issue: " ++ di.getD ""
                  else "No civic issue detected") :=
  validate_message_matches_truthy_issue ⟨some "img.png", none, none, false⟩
    (by decide) (mkRaw [⟨none, none, some (mkRat 9 10)⟩] [])

/-- C4 (counterexample): a record whose `class` field is present but holds
the empty string, with a `label` field `pothole`, is normalized to
class_label `pothole` — the present `class` field is skipped because its
value is falsy, refuting that presence alone decides the branch. -/
theorem normalizer_presence_counterexample :
    (normalizePred ⟨some "", some "pothole", some (mkRat 1 1)⟩).cls
      = some "pothole"
    ∧ (⟨some "", some "pothole", some (mkRat 1 1)⟩ : RawPred).cls = some ""
    ∧ some "pothole" ≠ (some "" : Option String) := by
  refine ⟨by decide, by decide, by decide⟩

/-- C4 (amended): each raw record is normalized to class_label := the
`class` value when it is present and truthy (non-empty), else the `label`
value (null when that field is absent); and confidence := the
`confidence` value when the field is present, else 0 — stated through the
prediction list `/analyze` returns. -/
theorem analyze_normalizes_by_truthiness (d : ReqBody)
    (h : truthyStr (imageSource d) = true) (raw : RawResult) :
    (analyze_image (some d) (.ok raw)).predictionsOf
      = some ((extractRawPreds raw).map
          (fun q => ⟨if truthyStr q.cls = true then q.cls else q.label,
                     q.conf.getD 0⟩)) := by
  have hd := truthy_of_imageSource d h
  simp only [analyze_image, dataTruthy, hd, h, Bool.not_true,
    Bool.false_eq_true, if_false, ite_false, AnalyzeResp.predictionsOf,
    analyzeCore_eq, Option.some.injEq]
  rfl

/-- Witness for the amended C4: a record with a falsy `class` value and a
record with a missing confidence, pushed through `/analyze`. -/
theorem analyze_normalizes_by_truthiness_witness :
    (analyze_image (some ⟨some "img.png", none, none, false⟩)
      (.ok (mkRaw [⟨some "", some "pothole", some (mkRat 1 1)⟩,
                   ⟨some "garbage", some "x", none⟩] []))).predictionsOf
      = some ((extractRawPreds
          (mkRaw [⟨some "", some "pothole", some (mkRat 1 1)⟩,
                  ⟨some "garbage", some "x", none⟩] [])).map
          (fun q => ⟨if truthyStr q.cls = true then q.cls else q.label,
                     q.conf.getD 0⟩)) :=
  analyze_normalizes_by_truthiness ⟨some "img.png", none, none, false⟩
    (by decide)
    (mkRaw [⟨some "", some "pothole", some (mkRat 1 1)⟩,
            ⟨some "garbage", some "x", none⟩] [])

/-- C6: on a non-empty prediction list, `/validate` reports the confidence
and label fields of the first prediction attaining the maximum
default-0 confidence — `List.find?` locates exactly the selected
element, so the selection is stable and deterministic. -/
theorem validate_selects_first_max (d : ReqBody)
    (h : truthyStr (imageSource d) = true)
    (p : RawPred) (ps : List RawPred) (outs : List OutputBundle) :
    ∃ best,
      List.find? (fun q => q.confD == maxConfD (p :: ps)) (p :: ps)
        = some best
      ∧ (validate_image (some d) (.ok (mkRaw (p :: ps) outs))).confidenceOf
          = some best.confD
      ∧ (validate_image (some d) (.ok (mkRaw (p :: ps) outs))).detectedIssueOf
          = some (pyOr best.cls best.label) := by
  refine ⟨pyMaxBy RawPred.confD p ps, ?_, ?_, ?_⟩
  · have hfind := find_pyMaxBy RawPred.confD p ps
    simpa [maxConfD, confD_pyMaxBy] using hfind
  · simp [validate_image, h, validateCore, mkRaw, ValidateResp.confidenceOf]
  · simp [validate_image, h, validateCore, mkRaw, ValidateResp.detectedIssueOf]

/-- Witness for C6: two predictions tied at 0.8 — the first one (label
`garbage`) is selected, not the later one. -/
theorem validate_selects_first_max_witness :
    ∃ best,
      List.find? (fun q => q.confD == maxConfD
          ([⟨some "garbage", none, some (mkRat 8 10)⟩,
            ⟨some "pothole", none, some (mkRat 8 10)⟩] : List RawPred))
        ([⟨some "garbage", none, some (mkRat 8 10)⟩,
          ⟨some "pothole", none, some (mkRat 8 10)⟩] : List RawPred) = some best
      ∧ (validate_image (some ⟨some "img.png", none, none, false⟩)
          (.ok (mkRaw [⟨some "garbage", none, some (mkRat 8 10)⟩,
                       ⟨some "pothole", none, some (mkRat 8 10)⟩] []))).confidenceOf
          = some best.confD
      ∧ (validate_image (some ⟨some "img.png", none, none, false⟩)
          (.ok (mkRaw [⟨some "garbage", none, some (mkRat 8 10)⟩,
                       ⟨some "pothole", none, some (mkRat 8 10)⟩] []))).detectedIssueOf
          = some (pyOr best.cls best.label) :=
  validate_selects_first_max ⟨some "img.png", none, none, false⟩ (by decide)
    ⟨some "garbage", none, some (mkRat 8 10)⟩
    [⟨some "pothole", none, some (mkRat 8 10)⟩] []

/-- C7: `/analyze` answers its 200 response whose prediction list is the
order-preserving normalization of the extracted raw predictions (same
length, elementwise image) and whose confidence is the maximum confidence
of the normalized list, or 0 when that list is empty. -/
theorem analyze_topConfidence_and_order (d : ReqBody)
    (h : truthyStr (imageSource d) = true) (raw : RawResult) :
    ∃ preds conf, analyze_image (some d) (.ok raw) = .ok preds conf raw
      ∧ preds = (extractRawPreds raw).map normalizePred
      ∧ preds.length = (extractRawPreds raw).length
      ∧ conf = maxNormConf preds := by
  have hd := truthy_of_imageSource d h
  refine ⟨(extractRawPreds raw).map normalizePred,
    maxConfD (extractRawPreds raw), ?_, rfl, by simp, ?_⟩
  · simp [analyze_image, dataTruthy, hd, h, analyzeCore_eq]
  · rw [maxNormConf_map]

/-- Witness for C7 at a two-prediction raw result. -/
theorem analyze_topConfidence_and_order_witness :
    ∃ preds conf,
      analyze_image (some ⟨some "img.png", none, none, false⟩)
        (.ok (mkRaw [⟨some "pothole", none, some (mkRat 3 10)⟩,
                     ⟨some "garbage", none, some (mkRat 8 10)⟩] []))
        = .ok preds conf
            (mkRaw [⟨some "pothole", none, some (mkRat 3 10)⟩,
                    ⟨some "garbage", none, some (mkRat 8 10)⟩] [])
      ∧ preds = (extractRawPreds
          (mkRaw [⟨some "pothole", none, some (mkRat 3 10)⟩,
                  ⟨some "garbage", none, some (mkRat 8 10)⟩] [])).map normalizePred
      ∧ preds.length = (extractRawPreds
          (mkRaw [⟨some "pothole", none, some (mkRat 3 10)⟩,
                  ⟨some "garbage", none, some (mkRat 8 10)⟩] [])).length
      ∧ conf = maxNormConf preds :=
  analyze_topConfidence_and_order ⟨some "img.png", none, none, false⟩
    (by decide)
    (mkRaw [⟨some "pothole", none, some (mkRat 3 10)⟩,
            ⟨some "garbage", none, some (mkRat 8 10)⟩] [])

/-- C9: for every raw result, the confidence `/analyze` reports (a plain
maximum with default 0 over the raw records) equals the confidence
`/validate` reports (the default-0 confidence of its argmax-selected
record): the two extraction paths agree. -/
theorem analyze_validate_confidence_agree (d : ReqBody)
    (h : truthyStr (imageSource d) = true) (raw : RawResult) :
    (analyze_image (some d) (.ok raw)).confidenceOf
      = (validate_image (some d) (.ok raw)).confidenceOf := by
  have hd := truthy_of_imageSource d h
  simp [analyze_image, validate_image, dataTruthy, hd, h,
    AnalyzeResp.confidenceOf, ValidateResp.confidenceOf, analyzeCore_eq,
    validateCore_confidence]

/-- Witness for C9 at a two-prediction raw result with distinct
confidences. -/
theorem analyze_validate_confidence_agree_witness :
    (analyze_image (some ⟨some "img.png", none, none, false⟩)
      (.ok (mkRaw [⟨some "pothole", none, some (mkRat 3 10)⟩,
                   ⟨some "garbage", none, some (mkRat 8 10)⟩] []))).confidenceOf
      = (validate_image (some ⟨some "img.png", none, none, false⟩)
      (.ok (mkRaw [⟨some "pothole", none, some (mkRat 3 10)⟩,
                   ⟨some "garbage", none, some (mkRat 8 10)⟩] []))).confidenceOf :=
  analyze_validate_confidence_agree ⟨some "img.png", none, none, false⟩
    (by decide)
    (mkRaw [⟨some "pothole", none, some (mkRat 3 10)⟩,
            ⟨some "garbage", none, some (mkRat 8 10)⟩] [])
